import Mathlib

/-!
Verification development for the excelFormater-backend dispatch engine.

Shallow embedding of the JavaScript sources:
* `src/lib/workers/apiWorker.js`    — error classifier and worker-thread retry loop
* `src/lib/services/processRecord.js` — record pipeline (circuit-breaker gate,
  user-action-error persistence, batch summary)
* `src/unnamed/part_004`            — worker-pool `batchProcess` (allSettled semantics)
* `src/unnamed/part_012`            — batch worker (sub-batching, serial fallback)
* `src/unnamed/part_005`            — adaptive concurrency controller
* `src/unnamed/part_006`            — rate-limiter auto-tuning
* `src/worker.js`                   — `trackApiCall` session statistics

JavaScript numbers that only ever hold integers are modelled as `Int`/`Nat`;
measured signals (CPU load, error rates, response times) are modelled as `ℚ`.
Fallible operations are modelled with `Except`/`Option`.
-/

namespace ExcelFormater

/-! ### Error classifier (src/lib/workers/apiWorker.js, `categorizeError`, lines 64-121) -/

/-- The closed category set `ERROR_CATEGORIES` (apiWorker.js lines 12-19). -/
inductive ErrorCategory
  | requiresUserAction
  | temporaryFailure
  | systemError
  | networkError
  | authError
  | unknownError
  deriving DecidableEq, Repr

/-- `USER_ACTION_STATUS_CODES` (apiWorker.js lines 22-28). -/
def userActionStatusCodes : List Nat := [400, 403, 404, 409, 422]

/-- `AUTH_ERROR_CODES` (apiWorker.js line 31). -/
def authErrorCodes : List Nat := [401, 403]

/-- The parts of an HTTP response that `categorizeError` and the record pipeline
inspect: `status`, and the body/header fields used for user-action metadata. -/
structure RespData where
  status : Nat
  dataErrors : Option String := none
  dataValidationErrors : Option String := none
  dataDetails : Option String := none
  dataPermission : Option String := none
  dataRequiredPermissions : Option String := none
  hdrRequiredPermission : Option String := none
  dataUserAction : Option String := none
  dataUserGuidance : Option String := none
  hdrUserAction : Option String := none
  hdrRetryAfter : Option String := none
  deriving DecidableEq, Repr

/-- The shape of an axios error as read by `categorizeError`: an optional
`response`, an optional transport `code` (`ECONNABORTED`, …), and the message
(of which only the presence of the substring `"timeout"` is inspected). -/
structure ApiError where
  response : Option RespData
  code : Option String
  messageHasTimeout : Bool
  message : String
  deriving DecidableEq, Repr

/-- JavaScript truthiness of `statusCode` (`undefined` and `0` are falsy). -/
def jsTruthy : Option Nat → Bool
  | none => false
  | some n => n != 0

/-- JavaScript `a || b` on optional values: first operand if present, else second. -/
def jsOr (a b : Option String) : Option String :=
  match a with
  | some x => some x
  | none => b

/-- Result record of `categorizeError` (apiWorker.js lines 106-120). -/
structure CategorizedError where
  category : ErrorCategory
  statusCode : Option Nat
  message : String
  userActionRequired : Bool
  canRetry : Bool
  validationErrors : Option String
  permissionInfo : Option String
  userActionGuidance : Option String
  deriving DecidableEq, Repr

/-- `categorizeError` (apiWorker.js lines 64-121), transcribed clause by clause. -/
def categorizeError (e : ApiError) : CategorizedError :=
  let statusCode := e.response.map (·.status)
  let category :=
    if jsTruthy statusCode then
      let c := statusCode.getD 0
      if userActionStatusCodes.contains c then ErrorCategory.requiresUserAction
      else if authErrorCodes.contains c then ErrorCategory.authError
      else if c = 429 then ErrorCategory.temporaryFailure
      else if 500 ≤ c then ErrorCategory.systemError
      else ErrorCategory.unknownError
    else if e.code = some "ECONNABORTED" ∨ e.messageHasTimeout then ErrorCategory.networkError
    else if e.code = some "ECONNREFUSED" ∨ e.code = some "ENOTFOUND" then ErrorCategory.networkError
    else ErrorCategory.unknownError
  let validationErrors :=
    if statusCode = some 400 ∨ statusCode = some 422 then
      jsOr (jsOr (e.response.bind (·.dataErrors)) (e.response.bind (·.dataValidationErrors)))
        (e.response.bind (·.dataDetails))
    else none
  let permissionInfo :=
    if statusCode = some 403 then
      jsOr (jsOr (e.response.bind (·.dataPermission)) (e.response.bind (·.dataRequiredPermissions)))
        (e.response.bind (·.hdrRequiredPermission))
    else none
  let userActionGuidance :=
    jsOr (jsOr (e.response.bind (·.dataUserAction)) (e.response.bind (·.dataUserGuidance)))
      (e.response.bind (·.hdrUserAction))
  { category := category
    statusCode := statusCode
    message := e.message
    userActionRequired := category = ErrorCategory.requiresUserAction
    canRetry := category = ErrorCategory.temporaryFailure ∨ category = ErrorCategory.networkError
    validationErrors := validationErrors
    permissionInfo := permissionInfo
    userActionGuidance := userActionGuidance }

/-! ### Worker-thread retry loop (src/lib/workers/apiWorker.js, `processRecord`, lines 165-244) -/

/-- `API_TIMEOUT = 15000` (apiWorker.js line 9). -/
def apiTimeout : Nat := 15000

/-- The per-attempt request timeout `API_TIMEOUT + (attempt * 5000)`
(apiWorker.js line 184), for the 0-based attempt counter. -/
def timeoutForAttempt (attempt : Nat) : Nat := apiTimeout + attempt * 5000

/-- What the network produces for one outbound POST: either an HTTP response
(any status) or a transport-level failure. -/
inductive WireOutcome
  | response (r : RespData)
  | netError (code : Option String) (hasTimeout : Bool) (message : String)
  deriving Repr

/-- The axios instance of apiWorker.js is created with
`validateStatus: status => status < 500` (line 36): a request that yields an
HTTP response resolves when `status < 500` and rejects (with `error.response`
set) when `status ≥ 500`; transport failures reject with no `response`. -/
def axiosPost (w : WireOutcome) : Except ApiError RespData :=
  match w with
  | .response r =>
      if r.status < 500 then .ok r
      else .error { response := some r, code := none, messageHasTimeout := false,
                    message := "Request failed with status code " ++ toString r.status }
  | .netError c t m => .error { response := none, code := c, messageHasTimeout := t, message := m }

/-- The identifiers in scope at the two `throw` sites of the worker's
`processRecord` (apiWorker.js lines 207-211 and 233-237): the module-level
bindings and the function's parameters and locals.  Transcribed from the
source; note the loop counter is named `attempt`, not `attempts`. -/
def workerThrowSiteScope : List String :=
  ["parentPort", "axios", "API_TIMEOUT", "ERROR_CATEGORIES", "USER_ACTION_STATUS_CODES",
   "AUTH_ERROR_CODES", "api", "categorizeError", "handleApiCall", "processRecord",
   "data", "record", "options", "apiUrl", "headers", "retryConfig",
   "maxRetries", "getBackoffDelay", "attempt", "err", "isLastAttempt",
   "categorizedError", "statusCode", "shouldRetry", "retryDelay", "apiCallStart"]

/-- Whether the shorthand property `attempts` in the throw objects refers to a
defined identifier. -/
def attemptsInScope : Bool := workerThrowSiteScope.contains "attempts"

/-- What the worker's `processRecord` throws.  Evaluating
`{ ...categorizedError, attempts, success: false }` first looks up the
identifier `attempts`; if it is not in scope, the evaluation itself raises a
`ReferenceError`, which replaces the categorized error. -/
inductive WorkerThrow
  | referenceError (missingIdent : String)
  | classified (c : CategorizedError) (attempts : Nat)
  deriving DecidableEq, Repr

/-- Builds the value actually thrown at each terminal-failure site of the
worker's `processRecord`: the categorized object if `attempts` is a defined
identifier, otherwise the `ReferenceError` raised while constructing it. -/
def throwTerminal (c : CategorizedError) (attempt : Nat) : WorkerThrow :=
  if attemptsInScope then .classified c attempt else .referenceError "attempts"

/-- Successful worker result (apiWorker.js lines 189-196). -/
structure WorkerSuccess where
  resp : RespData
  attempts : Nat
  deriving DecidableEq, Repr

/-- Outcome of one run of the worker retry loop together with the per-attempt
request timeouts it used (`.ok none` models the `undefined` return when the
`while` guard fails immediately, reachable only for `maxRetries = 0`). -/
structure WorkerRun where
  result : Except WorkerThrow (Option WorkerSuccess)
  timeoutsUsed : List Nat
  deriving Repr

/-- The retry loop of the worker's `processRecord` (apiWorker.js lines
174-243), recursing on the remaining attempt budget.  `wire n` is the network
outcome of the POST issued on 0-based attempt `n`. -/
def runWorkerLoop (wire : Nat → WireOutcome) (maxRetries : Nat) :
    Nat → Nat → WorkerRun
  | 0, _ => { result := .ok none, timeoutsUsed := [] }
  | fuel + 1, attempt =>
      match axiosPost (wire attempt) with
      | .ok r =>
          { result := .ok (some { resp := r, attempts := attempt + 1 })
            timeoutsUsed := [timeoutForAttempt attempt] }
      | .error err =>
          let attempt' := attempt + 1
          let isLastAttempt := attempt' == maxRetries
          let c := categorizeError err
          if c.category = ErrorCategory.requiresUserAction then
            { result := .error (throwTerminal c attempt), timeoutsUsed := [timeoutForAttempt attempt] }
          else
            let shouldRetry := !isLastAttempt && c.canRetry
            if isLastAttempt || !shouldRetry then
              { result := .error (throwTerminal c attempt), timeoutsUsed := [timeoutForAttempt attempt] }
            else
              let rest := runWorkerLoop wire maxRetries fuel attempt'
              { result := rest.result, timeoutsUsed := timeoutForAttempt attempt :: rest.timeoutsUsed }

/-- `processRecord` of the worker thread with the default retry configuration
`maxRetries = 3` supplied by the record pipeline (processRecord.js line 170). -/
def processRecordWorker (wire : Nat → WireOutcome) (maxRetries : Nat := 3) : WorkerRun :=
  runWorkerLoop wire maxRetries maxRetries 0

end ExcelFormater

namespace ExcelFormater

/-! ### Pool submission and the submitter-visible error
(src/unnamed/part_004, `WorkerPool`) -/

/-- An input record; the core only correlates on `memberId` and `requestId`. -/
structure Record where
  memberId : String
  requestId : String
  deriving DecidableEq, Repr

/-- The error object the pool submitter receives.  The worker's message handler
posts `JSON.stringify(error)` (apiWorker.js line 284) and
`handleWorkerMessage` parses it back and attaches `metadata.recordData`
(part_004 lines 195-211).  `JSON.stringify` keeps only enumerable own
properties: a thrown plain object keeps its fields, a thrown `Error` (such as
a `ReferenceError`) serialises to `"{}"`. -/
structure SubmitterErr where
  category : Option ErrorCategory := none
  statusCode : Option Nat := none
  message : Option String := none
  canRetry : Option Bool := none
  userActionRequired : Option Bool := none
  attempts : Option Nat := none
  validationErrors : Option String := none
  permissionInfo : Option String := none
  userActionGuidance : Option String := none
  recordData : Option Record := none
  deriving DecidableEq, Repr

/-- The round-trip `JSON.parse (JSON.stringify thrown)` plus the pool's
`recordData` enrichment: a `ReferenceError` loses all fields, a thrown plain
object keeps them. -/
def submitterView (t : WorkerThrow) (rec : Record) : SubmitterErr :=
  match t with
  | .referenceError _ => { recordData := some rec }
  | .classified c a =>
      { category := some c.category
        statusCode := c.statusCode
        message := some c.message
        canRetry := some c.canRetry
        userActionRequired := some c.userActionRequired
        attempts := some a
        validationErrors := c.validationErrors
        permissionInfo := c.permissionInfo
        userActionGuidance := c.userActionGuidance
        recordData := some rec }

/-- One entry of `batchProcess`'s result vector (part_004 lines 331-346). -/
structure SettledResult where
  success : Bool
  data : Option (Option WorkerSuccess) := none
  error : Option SubmitterErr := none
  record : Record
  userActionRequired : Option Bool := none
  deriving DecidableEq, Repr

/-- `Promise.allSettled` semantics for one record's pool task: a resolution
becomes `{success: true, data, record}`, a rejection becomes
`{success: false, error, record, userActionRequired}`. -/
def settleRecord (rec : Record) (run : WorkerRun) : SettledResult :=
  match run.result with
  | .ok s => { success := true, data := some s, record := rec }
  | .error t =>
      let v := submitterView t rec
      { success := false, error := some v, record := rec,
        userActionRequired := some (v.userActionRequired.getD false) }

/-- `WorkerPool.batchProcess` (part_004 lines 325-347): submit every record,
await all settled, return per-record results preserving input order.  It is a
total function — per-record rejections (including submission transport
failures, part_004 lines 280-293) are captured as settled failures, never
propagated as a batch-level throw. -/
def batchProcess (records : List Record) (worker : Record → WorkerRun) : List SettledResult :=
  records.map (fun r => settleRecord r (worker r))

/-! ### Record pipeline (src/lib/services/processRecord.js) -/

/-- The `metrics:circuitBreaker` hash as read by `isCircuitBreakerActive`. -/
structure CBHash where
  lastTripped : Option Int := none
  reason : Option String := none
  deriving DecidableEq, Repr

/-- Outcome of the `redis.hgetall('metrics:circuitBreaker')` read: the hash
when the read succeeds, or a read failure (which the gate swallows). -/
inductive CBRead
  | ok (h : Option CBHash)
  | failed
  deriving Repr

/-- `resetTimeout = 60000` (processRecord.js line 25). -/
def circuitBreakerGateResetTimeout : Int := 60000

/-- `isCircuitBreakerActive` (processRecord.js lines 20-51): true when the
stored hash has a `lastTripped` value with `now − tripTime < resetTimeout`;
a failed read is non-critical and returns false. -/
def isCircuitBreakerActive (cb : CBRead) (now : Int) : Bool :=
  match cb with
  | .failed => false
  | .ok none => false
  | .ok (some h) =>
      match h.lastTripped with
      | none => false
      | some t => decide (now - t < circuitBreakerGateResetTimeout)

/-- Durable writes issued by the pipeline (Redis keys of §6 of the key
namespace): `successResponse:*` + `successResponses:<sessionId>`,
`userActionError:<errorId>` + `userActionErrors:<sessionId>`, and the
`metrics:recordErrors` bump. -/
inductive RedisWrite
  | successResponse (sessionId jobId : String) (status : Nat) (rec : Record)
  | userActionErrorKey (sessionId jobId : String) (statusCode : Option Nat) (rec : Record)
  | userActionErrorsAppend (sessionId : String)
  | recordErrorsBump (statusCode : Nat)
  deriving DecidableEq, Repr

/-- The error `processRecord` rethrows after its bookkeeping
(processRecord.js lines 246-347). -/
structure PipelineError where
  message : String
  category : Option ErrorCategory := none
  statusCode : Option Nat := none
  attempts : Nat := 1
  requiresUserAction : Option Bool := none
  deriving DecidableEq, Repr

/-- Result of the per-record pipeline: the value returned or error thrown, the
number of outbound HTTP POSTs issued for the record, and the durable writes. -/
structure PipelineRun where
  result : Except PipelineError WorkerSuccess
  httpPosts : Nat
  effects : List RedisWrite
  deriving Repr

/-- `storeUserActionError` (processRecord.js lines 60-106): persists
`userActionError:<errorId>` with TTL 24 h and appends the id to
`userActionErrors:<sessionId>`. -/
def storeUserActionError (sessionId jobId : String) (statusCode : Option Nat)
    (rec : Record) : List RedisWrite :=
  [.userActionErrorKey sessionId jobId statusCode rec, .userActionErrorsAppend sessionId]

/-- The per-record pipeline `processRecord` (processRecord.js lines 168-348):
circuit-breaker gate, pool submission, then success bookkeeping or the
error-categorisation bookkeeping of the catch block.  When the gate is active
the record is rejected by `throw new Error('Circuit breaker active - request
rejected')` (line 182) before any pool submission, so no POST is issued. -/
def pipelineProcessRecord (cb : CBRead) (now : Int) (wire : Nat → WireOutcome)
    (rec : Record) (sessionId jobId : String) : PipelineRun :=
  if isCircuitBreakerActive cb now then
    { result := .error { message := "Circuit breaker active - request rejected" }
      httpPosts := 0, effects := [] }
  else
    let run := processRecordWorker wire
    match run.result with
    | .ok (some s) =>
        { result := .ok s
          httpPosts := run.timeoutsUsed.length
          effects := [.successResponse sessionId jobId s.resp.status rec] }
    | .ok none =>
        -- `undefined` worker result (only reachable with a zero retry budget):
        -- reading `result.duration` raises a TypeError.
        { result := .error { message := "TypeError: Cannot read properties of undefined" }
          httpPosts := run.timeoutsUsed.length, effects := [] }
    | .error t =>
        let err := submitterView t rec
        let statusCode := err.statusCode.getD 0
        let userAction := err.category = some ErrorCategory.requiresUserAction
        let uaEffects :=
          if userAction then storeUserActionError sessionId jobId err.statusCode rec else []
        let bumpEffects :=
          if statusCode = 429 ∨ 500 ≤ statusCode then [RedisWrite.recordErrorsBump statusCode]
          else []
        { result := .error
            { message := err.message.getD "Unknown error"
              category := err.category
              statusCode := err.statusCode
              attempts := err.attempts.getD 1
              requiresUserAction := if userAction then some true else none }
          httpPosts := run.timeoutsUsed.length
          effects := uaEffects ++ bumpEffects }

/-- Result of `batchProcessRecords` (processRecord.js lines 499-566). -/
structure BatchOutcome where
  results : List SettledResult
  successCount : Nat
  failureCount : Nat
  userActionRequiredCount : Nat
  effects : List RedisWrite
  deriving Repr

/-- Whether a settled result is a user-action failure as tested on
processRecord.js line 524 (`result.error?.category === REQUIRES_USER_ACTION`). -/
def isUserActionFailure (r : SettledResult) : Bool :=
  !r.success && (r.error.bind (·.category) == some ErrorCategory.requiresUserAction)

/-- `batchProcessRecords` (processRecord.js lines 499-566): runs the pool's
`batchProcess`, stores a `SuccessResponse` for each success and a
`UserActionError` for each REQUIRES_USER_ACTION failure, and summarises
`successCount` (successes), `userActionRequiredCount`, and
`failureCount = length − successCount − userActionRequiredCount`. -/
def batchProcessRecords (records : List Record) (worker : Record → WorkerRun)
    (sessionId jobId : String) : BatchOutcome :=
  let batchResults := batchProcess records worker
  let effects := batchResults.flatMap (fun r =>
    if r.success then
      [RedisWrite.successResponse sessionId jobId
        (((r.data.getD none).map (·.resp.status)).getD 0) r.record]
    else if isUserActionFailure r then
      storeUserActionError sessionId jobId (r.error.bind (·.statusCode)) r.record
    else [])
  let userActionRequiredCount := (batchResults.filter isUserActionFailure).length
  let successCount := (batchResults.filter (·.success)).length
  { results := batchResults
    successCount := successCount
    failureCount := batchResults.length - successCount - userActionRequiredCount
    userActionRequiredCount := userActionRequiredCount
    effects := effects }

end ExcelFormater

namespace ExcelFormater

/-! ### Batch worker (src/unnamed/part_012, `createWorker` processor, lines 38-345) -/

/-- `BATCH_SIZE = 10` (part_012 line 101). -/
def batchSize : Nat := 10

/-- Fuel-indexed chunking helper (structural recursion so that concrete runs
reduce definitionally); with fuel ≥ the list's length it splits the list into
consecutive chunks of `n`. -/
def chunksOfAux (n : Nat) : Nat → List Record → List (List Record)
  | 0, _ => []
  | _, [] => []
  | fuel + 1, x :: xs =>
      if n = 0 then [x :: xs]
      else ((x :: xs).take n) :: chunksOfAux n fuel ((x :: xs).drop n)

/-- Split a list into consecutive chunks of `n` (the `records.slice(i, i + BATCH_SIZE)`
loop of part_012 lines 105-107). -/
def chunksOf (n : Nat) (l : List Record) : List (List Record) :=
  chunksOfAux n l.length l

/-- What the batch worker's `try` block throws.  The loop's first use of a
sub-batch result is `batchResults.filter(r => r.success)` (part_012
line 119), but `batchResults` (line 110) is the `{results, summary}` object
returned by `batchProcessRecords` (processRecord.js lines 557-565), which has
no `filter` method, so the call raises
`TypeError: batchResults.filter is not a function`. -/
inductive BatchLoopThrow
  | filterTypeError
  deriving DecidableEq, Repr

/-- Job-level outcome of the batch worker's processor, with the durable
writes it caused. -/
structure JobResult where
  jobFailed : Option String
  usedFallback : Bool
  successCount : Nat
  failureCount : Nat
  progressSnapshots : List (Nat × Nat)
  effects : List RedisWrite
  deriving DecidableEq, Repr

/-- The sub-batch loop of part_012 lines 105-203.  With zero iterations (an
empty chunk list) it completes with counts (0, 0).  Otherwise the first
iteration runs `batchProcessRecords` on the first chunk — its pool processing
and durable writes do happen — and then throws the `.filter` TypeError at
line 119, before any count update, progress snapshot, `job.updateProgress`,
or `worker:globalMetrics` write is reached.  Returns (thrown error if any,
successCount, failureCount, per-sub-batch count snapshots, durable writes). -/
def runSubBatches (worker : Record → WorkerRun) (sessionId jobId : String) :
    List (List Record) →
    Option BatchLoopThrow × Nat × Nat × List (Nat × Nat) × List RedisWrite
  | [] => (none, 0, 0, [], [])
  | c :: _ =>
      let batchResults := batchProcessRecords c worker sessionId jobId
      (some BatchLoopThrow.filterTypeError, 0, 0, [], batchResults.effects)

/-- The serial fallback of part_012 lines 210-304: reprocess *all* records
in-process through the per-record pipeline (`serialRun` is that pipeline's
behaviour per record), continuing from the counts already accumulated (they
are not reset), and collecting the pipeline's durable writes. -/
def runSerialFallback (serialRun : Record → PipelineRun) :
    List Record → Nat → Nat → Nat × Nat × List RedisWrite
  | [], sc, fc => (sc, fc, [])
  | r :: rest, sc, fc =>
      match (serialRun r).result with
      | .ok _ =>
          let t := runSerialFallback serialRun rest (sc + 1) fc
          (t.1, t.2.1, (serialRun r).effects ++ t.2.2)
      | .error _ =>
          let t := runSerialFallback serialRun rest sc (fc + 1)
          (t.1, t.2.1, (serialRun r).effects ++ t.2.2)

/-- The batch worker's job processor (part_012 lines 53-344).
`validationOk` is the outcome of `validateJobData`, `sessionFound` of the
session-config lookup, and `poolInitOk` of `workerPool.initialize()` — the
pool is initialised *before* the `try` block (lines 93-96), so its failure
fails the whole job rather than triggering the serial fallback.  Any throw
from the sub-batch loop (in this code, always the `.filter` TypeError on the
first sub-batch of a non-empty job) is caught at line 204 and sends the job
into the serial per-record fallback. -/
def processJob (records : List Record) (validationOk sessionFound poolInitOk : Bool)
    (worker : Record → WorkerRun) (serialRun : Record → PipelineRun)
    (sessionId jobId : String) : JobResult :=
  if !validationOk then
    { jobFailed := some "Job data validation failed", usedFallback := false,
      successCount := 0, failureCount := 0, progressSnapshots := [], effects := [] }
  else if !sessionFound then
    { jobFailed := some "No config found", usedFallback := false,
      successCount := 0, failureCount := 0, progressSnapshots := [], effects := [] }
  else if !poolInitOk then
    { jobFailed := some "Failed to initialize worker pool", usedFallback := false,
      successCount := 0, failureCount := 0, progressSnapshots := [], effects := [] }
  else
    match runSubBatches worker sessionId jobId (chunksOf batchSize records) with
    | (none, sc, fc, snaps, effs) =>
        { jobFailed := none, usedFallback := false,
          successCount := sc, failureCount := fc, progressSnapshots := snaps, effects := effs }
    | (some _, sc, fc, snaps, effs) =>
        let t := runSerialFallback serialRun records sc fc
        { jobFailed := none, usedFallback := true,
          successCount := t.1, failureCount := t.2.1, progressSnapshots := snaps,
          effects := effs ++ t.2.2 }

/-! ### Session statistics (src/worker.js, `trackApiCall`, lines 23-89) -/

/-- The `responseData` fields `trackApiCall` reads: `status`,
`error?.status`, and the `success` flag computed by the caller. -/
structure TrackedOutcome where
  status : Option Nat := none
  errorStatus : Option Nat := none
  success : Bool
  deriving DecidableEq, Repr

/-- `statusCode = responseData.status || responseData.error?.status || 0`
(worker.js line 30), with JavaScript falsiness of `undefined` and `0`. -/
def trackedStatusCode (o : TrackedOutcome) : Nat :=
  if jsTruthy o.status then o.status.getD 0
  else if jsTruthy o.errorStatus then o.errorStatus.getD 0
  else 0

/-- The `apistats:<sessionId>` hash. -/
structure SessionStats where
  total : Nat := 0
  success : Nat := 0
  failure : Nat := 0
  statusCounts : List (Nat × Nat) := []
  deriving DecidableEq, Repr

/-- `HINCRBY`-style bump of one `status:<code>` field. -/
def bumpStatus (counts : List (Nat × Nat)) (code : Nat) : List (Nat × Nat) :=
  match counts with
  | [] => [(code, 1)]
  | (c, n) :: rest => if c = code then (c, n + 1) :: rest else (c, n) :: bumpStatus rest code

/-- The statistics pipeline of `trackApiCall` (worker.js lines 28-81):
override `success` to false on HTTP status ≥ 400, increment `total`, increment
`success` or `failure`, and increment `status:<code>` only when the computed
status code is truthy (`if (statusCode)`, line 76). -/
def trackApiCall (s : SessionStats) (o : TrackedOutcome) : SessionStats :=
  let statusCode := trackedStatusCode o
  let isHttpError := 400 ≤ statusCode
  let success := if isHttpError && o.success then false else o.success
  { total := s.total + 1
    success := s.success + (if success then 1 else 0)
    failure := s.failure + (if success then 0 else 1)
    statusCounts := if statusCode ≠ 0 then bumpStatus s.statusCounts statusCode else s.statusCounts }

/-- The persisted stats after a sequence of recorded outcomes. -/
def trackAll (outcomes : List TrackedOutcome) : SessionStats :=
  outcomes.foldl trackApiCall {}

/-- Sum of all `status:<code>` counters. -/
def statusSum (s : SessionStats) : Nat := (s.statusCounts.map (·.2)).sum

end ExcelFormater

namespace ExcelFormater

/-! ### Adaptive concurrency controller (src/unnamed/part_005 together with
src/lib/constants/concurrency.js and src/lib/helpers/metrics.js) -/

/-- `MIN_CONCURRENCY = 20` (concurrency.js line 15). -/
def minConcurrency : Int := 20

/-- `MAX_CONCURRENCY = 50` (concurrency.js line 16). -/
def maxConcurrency : Int := 50

/-- `COOLDOWN_MS = 30000` (concurrency.js line 17). -/
def cooldownMs : Int := 30000

/-- `MAX_DECREASE_STEP = 3` (concurrency.js line 18). -/
def maxDecreaseStep : Int := 3

/-- `CONCURRENCY_STABILITY_THRESHOLD = 5` (concurrency.js line 21). -/
def concurrencyStabilityThreshold : Nat := 5

/-- `CONCURRENCY_INCREASE_RATE = 2` (concurrency.js line 22). -/
def concurrencyIncreaseRate : Int := 2

/-- `HISTORY_LENGTH = 5` (concurrency.js line 26). -/
def historyLength : Nat := 5

/-- `TREND_HISTORY_LENGTH = 3` (concurrency.js line 27). -/
def trendHistoryLength : Nat := 3

/-- `SYSTEM_HEALTH_HISTORY = 10` (concurrency.js line 28). -/
def systemHealthHistoryLen : Nat := 10

/-- `CIRCUIT_BREAKER_ERROR_THRESHOLD = 0.3` (concurrency.js line 31). -/
def circuitBreakerErrorThreshold : ℚ := 3 / 10

/-- `CIRCUIT_BREAKER_RESET_TIMEOUT = 60000` (concurrency.js line 32). -/
def circuitBreakerResetTimeout : Int := 60000

/-- `MAX_RECOVERY_STEPS = 5` (concurrency.js line 36). -/
def maxRecoverySteps : Nat := 5

/-- `PREDICTION_UPDATE_INTERVAL = 900000` (concurrency.js line 39). -/
def predictionUpdateInterval : Int := 900000

/-- `movingAverage` (metrics.js lines 17-20). -/
def movingAverage (l : List ℚ) : ℚ :=
  if l = [] then 0 else l.sum / (l.length : ℚ)

/-- `detectTrend` (metrics.js lines 27-37): compare the last entry to the one
before it; `1` on a >10 % rise, `-1` on a >10 % fall, else `0`. -/
def detectTrend (l : List ℚ) : Int :=
  if l.length < 2 then 0
  else
    let mostRecent := l.getD (l.length - 1) 0
    let previous := l.getD (l.length - 2) 0
    if mostRecent > previous * (11 / 10) then 1
    else if mostRecent < previous * (9 / 10) then -1
    else 0

/-- `arr.push(x); if (arr.length > cap) arr.shift()`. -/
def pushCap {α : Type} (cap : Nat) (l : List α) (x : α) : List α :=
  let l' := l ++ [x]
  if cap < l'.length then l'.tail else l'

/-- Trend scores of part_005 lines 207-210: `reduce((acc, val) => acc - val, 0)
/ length` (the backlog score uses `acc + val`). -/
def negTrendScore (l : List Int) : ℚ := ((-l.sum : Int) : ℚ) / (l.length : ℚ)

/-- `backlogTrend.reduce((acc, val) => acc + val, 0) / length` (line 209). -/
def posTrendScore (l : List Int) : ℚ := ((l.sum : Int) : ℚ) / (l.length : ℚ)

/-- `responseTimeChangeTrend.reduce((acc, val) => acc - val, 0) / length`. -/
def negRatTrendScore (l : List ℚ) : ℚ := (-l.sum) / (l.length : ℚ)

/-- Lookup in `dailyConcurrencyPatterns` (hour-indexed association list). -/
def patternsGet (ps : List (Nat × List Int)) (h : Nat) : Option (List Int) :=
  (ps.find? (fun p => p.1 = h)).map (·.2)

/-- Update one hour bucket of `dailyConcurrencyPatterns`. -/
def patternsSet (ps : List (Nat × List Int)) (h : Nat) (v : List Int) :
    List (Nat × List Int) :=
  match ps with
  | [] => [(h, v)]
  | (k, w) :: rest => if k = h then (k, v) :: rest else (k, w) :: patternsSet rest h v

/-- The controller's module-level state (part_005 lines 29-61). -/
structure CState where
  currentConcurrency : Int
  lastConcurrencyChange : Int
  consecutiveDecreaseTriggers : Nat
  stabilityCounter : Nat
  circuitBreakerTripped : Bool
  circuitBreakerTripTime : Int
  previousSystemHealth : List ℚ
  inRecoveryMode : Bool
  recoveryStartConcurrency : Int
  recoveryTargetConcurrency : Int
  recoveryStepsTaken : Nat
  dailyConcurrencyPatterns : List (Nat × List Int)
  predictedConcurrencyAdjustment : Int
  lastPredictionUpdate : Int
  cpuHistory : List ℚ
  memHistory : List ℚ
  errorRateHistory : List ℚ
  backlogHistory : List ℚ
  responseTimeHistory : List ℚ
  cpuTrend : List Int
  errorTrend : List Int
  backlogTrend : List Int
  responseTimeChangeTrend : List ℚ
  lastAvgResponseTime : ℚ
  deriving DecidableEq, Repr

/-- The initial module state (part_005 lines 30-61): concurrency starts at
`MIN_CONCURRENCY`, every history empty, every counter zero. -/
def initialCState : CState where
  currentConcurrency := minConcurrency
  lastConcurrencyChange := 0
  consecutiveDecreaseTriggers := 0
  stabilityCounter := 0
  circuitBreakerTripped := false
  circuitBreakerTripTime := 0
  previousSystemHealth := []
  inRecoveryMode := false
  recoveryStartConcurrency := 0
  recoveryTargetConcurrency := 0
  recoveryStepsTaken := 0
  dailyConcurrencyPatterns := []
  predictedConcurrencyAdjustment := 0
  lastPredictionUpdate := 0
  cpuHistory := []
  memHistory := []
  errorRateHistory := []
  backlogHistory := []
  responseTimeHistory := []
  cpuTrend := []
  errorTrend := []
  backlogTrend := []
  responseTimeChangeTrend := []
  lastAvgResponseTime := 0

/-- The measurements one controller tick gathers (part_005 lines 138-177):
wall-clock `now`, OS load, free-memory ratio, queue backlog, error rate, the
optional `metrics:latestAvgResponseTime` value, and the local hour of `now`
(`getHourFromTimestamp`). -/
structure Sample where
  now : Int
  cpu : ℚ
  mem : ℚ
  backlog : ℚ
  apiErrorRate : ℚ
  redisAvgResponseTime : Option ℚ
  hourNow : Nat
  deriving Repr

/-- The per-tick derived metrics of part_005 lines 195-230. -/
structure Derived where
  avgCpu : ℚ
  avgMem : ℚ
  avgError : ℚ
  avgBacklog : ℚ
  avgResponseTime : ℚ
  lastAvgResponseTime : ℚ
  systemHealth : ℚ
  padj : Int
  deriving Repr

/-- Which branch of the decision chain a tick took. -/
inductive Decision
  | breakerReset
  | breakerActiveSkip
  | trip
  | cooldown
  | recovery
  | increase
  | decrease
  | stable
  deriving DecidableEq, Repr

/-- A tick's outcome: the new module state, the value returned to
`startWorker` (`some c` for `{concurrency: c}`, `none` for `null`), and the
branch taken. -/
structure TickOut where
  state : CState
  ret : Option Int
  decision : Decision
  deriving Repr

/-- `Math.floor(MIN_CONCURRENCY * 1.5)` (part_005 line 147). -/
def recoveryTargetInit : Int := ⌊(minConcurrency : ℚ) * (3 / 2)⌋

/-- The severity-scaled decrease step of part_005 lines 357-369:
`multiplier` is 1, replaced by 2 when `systemHealth < −0.6` and by 3 when
`avgError > 0.2`; the step is `min(consecutiveDecreaseTriggers,
MAX_DECREASE_STEP * multiplier)`, raised to `|padj|` when the predictive
adjustment is negative.  `triggers` is the already-incremented counter. -/
def decreaseStepCalc (triggers : Nat) (systemHealth avgError : ℚ) (padj : Int) : Int :=
  let severityMultiplier : Int :=
    if avgError > 1 / 5 then 3
    else if systemHealth < -(3 / 5) then 2
    else 1
  let step := min (triggers : Int) (maxDecreaseStep * severityMultiplier)
  if padj < 0 then max step (-padj) else step

/-- The decision chain of one controller tick (part_005 lines 243-421),
evaluated after the metric histories have been pushed into `s` and the derived
metrics `d` computed: circuit-breaker trip, per-decision cooldown, recovery
stepping, increase, decrease, or the stable branch with its optional
predictive adjustment. -/
def decidePhase (s : CState) (now : Int) (d : Derived) : TickOut :=
  if d.avgError > circuitBreakerErrorThreshold ∨ d.systemHealth < -(7 / 10) then
    let s' := { s with circuitBreakerTripped := true, circuitBreakerTripTime := now,
                       inRecoveryMode := false, stabilityCounter := 0,
                       currentConcurrency := minConcurrency }
    { state := s', ret := some minConcurrency, decision := .trip }
  else if now - s.lastConcurrencyChange < cooldownMs then
    { state := s, ret := none, decision := .cooldown }
  else if s.inRecoveryMode then
    let steps' := s.recoveryStepsTaken + 1
    let stepSize : Int :=
      ⌈((s.recoveryTargetConcurrency - s.recoveryStartConcurrency : Int) : ℚ) /
        (maxRecoverySteps : ℚ)⌉
    let newC := min s.recoveryTargetConcurrency
      (s.recoveryStartConcurrency + stepSize * (steps' : Int))
    let exit := decide (maxRecoverySteps ≤ steps') || decide (s.recoveryTargetConcurrency ≤ newC)
    if newC ≠ s.currentConcurrency then
      { state := { s with recoveryStepsTaken := steps', inRecoveryMode := !exit,
                          currentConcurrency := newC, lastConcurrencyChange := now }
        ret := some newC, decision := .recovery }
    else
      { state := { s with recoveryStepsTaken := steps', inRecoveryMode := !exit }
        ret := none, decision := .recovery }
  else if d.systemHealth > 3 / 10 ∧ d.avgCpu < 3 / 2 ∧ d.avgMem > 2 / 5 ∧
          d.avgBacklog > 5 ∧ d.avgError < 7 / 100 then
    let stability' := s.stabilityCounter + 1
    let amtBase : Int := 1
    let amtScaled :=
      if concurrencyStabilityThreshold < stability' ∧ d.avgBacklog > 20 then
        min concurrencyIncreaseRate ⌊d.avgBacklog / 10⌋
      else amtBase
    let amt := if 0 < d.padj then max amtScaled d.padj else amtScaled
    let newC := min maxConcurrency (s.currentConcurrency + amt)
    if s.currentConcurrency < newC then
      { state := { s with consecutiveDecreaseTriggers := 0, stabilityCounter := stability',
                          currentConcurrency := newC, lastConcurrencyChange := now }
        ret := some newC, decision := .increase }
    else
      { state := { s with consecutiveDecreaseTriggers := 0, stabilityCounter := stability' }
        ret := none, decision := .increase }
  else if d.systemHealth < -(3 / 10) ∨ d.avgCpu > 2 ∨ d.avgMem < 1 / 5 ∨
          d.avgError > 1 / 10 ∨ d.avgResponseTime > d.lastAvgResponseTime * (3 / 2) then
    let triggers' := s.consecutiveDecreaseTriggers + 1
    let step := decreaseStepCalc triggers' d.systemHealth d.avgError d.padj
    let newC := max minConcurrency (s.currentConcurrency - step)
    if newC < s.currentConcurrency then
      { state := { s with consecutiveDecreaseTriggers := triggers', stabilityCounter := 0,
                          currentConcurrency := newC, lastConcurrencyChange := now }
        ret := some newC, decision := .decrease }
    else
      { state := { s with consecutiveDecreaseTriggers := triggers', stabilityCounter := 0 }
        ret := none, decision := .decrease }
  else
    let stability' :=
      if 0 < d.systemHealth then min (s.stabilityCounter + 1) concurrencyStabilityThreshold
      else s.stabilityCounter - 1
    let triggers' := s.consecutiveDecreaseTriggers - 1
    if 2 ≤ |d.padj| ∧ cooldownMs * 2 < now - s.lastConcurrencyChange then
      let newC := max minConcurrency (min maxConcurrency (s.currentConcurrency + d.padj))
      if newC ≠ s.currentConcurrency then
        { state := { s with stabilityCounter := stability',
                            consecutiveDecreaseTriggers := triggers',
                            currentConcurrency := newC, lastConcurrencyChange := now }
          ret := some newC, decision := .stable }
      else
        { state := { s with stabilityCounter := stability',
                            consecutiveDecreaseTriggers := triggers' }
          ret := none, decision := .stable }
    else
      { state := { s with stabilityCounter := stability',
                          consecutiveDecreaseTriggers := triggers' }
        ret := none, decision := .stable }

/-- `monitorAndAdjustConcurrency` (part_005 lines 137-422): the circuit-breaker
reset / skip pre-checks, then the metric-gathering phase (histories, trends,
system health, pattern update, predictive adjustment), then the decision
chain.  Note part_005 line 199 overwrites `lastAvgResponseTime` with the
current average before the decision chain reads it. -/
def tick (s : CState) (inp : Sample) : TickOut :=
  if s.circuitBreakerTripped ∧ circuitBreakerResetTimeout < inp.now - s.circuitBreakerTripTime then
    let s' := { s with circuitBreakerTripped := false, inRecoveryMode := true,
                       recoveryStartConcurrency := minConcurrency,
                       recoveryTargetConcurrency := recoveryTargetInit,
                       recoveryStepsTaken := 0,
                       currentConcurrency := minConcurrency }
    { state := s', ret := some minConcurrency, decision := .breakerReset }
  else if s.circuitBreakerTripped then
    { state := s, ret := none, decision := .breakerActiveSkip }
  else
    let responseTimeHistory :=
      match inp.redisAvgResponseTime with
      | some v => pushCap historyLength s.responseTimeHistory v
      | none => s.responseTimeHistory
    let cpuHistory := pushCap historyLength s.cpuHistory inp.cpu
    let memHistory := pushCap historyLength s.memHistory inp.mem
    let errorRateHistory := pushCap historyLength s.errorRateHistory inp.apiErrorRate
    let backlogHistory := pushCap historyLength s.backlogHistory inp.backlog
    let cpuTrend := pushCap trendHistoryLength s.cpuTrend (detectTrend cpuHistory)
    let errorTrend := pushCap trendHistoryLength s.errorTrend (detectTrend errorRateHistory)
    let backlogTrend := pushCap trendHistoryLength s.backlogTrend (detectTrend backlogHistory)
    let avgResponseTime := movingAverage responseTimeHistory
    let rtChange : ℚ :=
      if 0 < s.lastAvgResponseTime then
        (avgResponseTime - s.lastAvgResponseTime) / s.lastAvgResponseTime
      else 0
    let responseTimeChangeTrend := pushCap trendHistoryLength s.responseTimeChangeTrend rtChange
    let avgCpu := movingAverage cpuHistory
    let avgMem := movingAverage memHistory
    let avgError := movingAverage errorRateHistory
    let avgBacklog := movingAverage backlogHistory
    let systemHealth :=
      negTrendScore cpuTrend * (3 / 10) + negTrendScore errorTrend * (3 / 10) +
      posTrendScore backlogTrend * (1 / 5) + negRatTrendScore responseTimeChangeTrend * (1 / 5)
    let previousSystemHealth := pushCap systemHealthHistoryLen s.previousSystemHealth systemHealth
    -- `updateConcurrencyPatterns` (part_005 lines 66-90)
    let patterns :=
      if previousSystemHealth ≠ [] ∧ movingAverage previousSystemHealth > 1 / 2 ∧
         (s.currentConcurrency : ℚ) > ((minConcurrency + maxConcurrency : Int) : ℚ) / 2 then
        patternsSet s.dailyConcurrencyPatterns inp.hourNow
          (pushCap 10 ((patternsGet s.dailyConcurrencyPatterns inp.hourNow).getD [])
            s.currentConcurrency)
      else s.dailyConcurrencyPatterns
    -- `calculatePredictiveConcurrency` (part_005 lines 96-131)
    let padjPair : Int × Int :=
      if inp.now - s.lastPredictionUpdate < predictionUpdateInterval then
        (s.predictedConcurrencyAdjustment, s.lastPredictionUpdate)
      else
        match patternsGet patterns ((inp.hourNow + 1) % 24) with
        | some (v :: vs) =>
            let bucket := v :: vs
            let avgNextHour : ℚ := ((bucket.sum : Int) : ℚ) / (bucket.length : ℚ)
            let raw : Int := round (avgNextHour - (s.currentConcurrency : ℚ))
            (min 5 (max (-5) raw), inp.now)
        | _ => (0, s.lastPredictionUpdate)
    let sBase := { s with
      responseTimeHistory := responseTimeHistory
      cpuHistory := cpuHistory
      memHistory := memHistory
      errorRateHistory := errorRateHistory
      backlogHistory := backlogHistory
      cpuTrend := cpuTrend
      errorTrend := errorTrend
      backlogTrend := backlogTrend
      responseTimeChangeTrend := responseTimeChangeTrend
      lastAvgResponseTime := avgResponseTime
      previousSystemHealth := previousSystemHealth
      dailyConcurrencyPatterns := patterns
      predictedConcurrencyAdjustment := padjPair.1
      lastPredictionUpdate := padjPair.2 }
    let d : Derived := { avgCpu := avgCpu, avgMem := avgMem, avgError := avgError,
                         avgBacklog := avgBacklog, avgResponseTime := avgResponseTime,
                         lastAvgResponseTime := avgResponseTime,
                         systemHealth := systemHealth, padj := padjPair.1 }
    decidePhase sBase inp.now d

/-- Folding the controller over a sequence of tick samples from its initial
state (the `setInterval` loop of part_012 lines 872-878). -/
def runTicks (samples : List Sample) : CState :=
  samples.foldl (fun s inp => (tick s inp).state) initialCState

end ExcelFormater

namespace ExcelFormater

/-! ### Rate limiter auto-tuning (src/unnamed/part_006) -/

/-- The Bottleneck settings the tuner reads and writes: `maxConcurrent`,
`minTime`, and the current token reservoir. -/
structure LimiterState where
  maxConcurrent : Int
  minTime : ℚ
  currentReservoir : Int
  deriving DecidableEq, Repr

/-- The limiter's construction values (part_006 lines 10-18):
`maxConcurrent: 5`, `minTime: 100`, `reservoir: 100`. -/
def initialLimiter : LimiterState where
  maxConcurrent := 5
  minTime := 100
  currentReservoir := 100

/-- One auto-tune tick (part_006 lines 33-74).  On a high error rate
(`> 0.1`) it sets `maxConcurrent = Math.max(1, Math.floor(limiter.currentReservoir
* 0.8))` — note: computed from the reservoir, not from the previous
`maxConcurrent` — and `minTime = Math.min(500, minTime * 1.2)`; on a low error
rate (`< 0.01`) with fast responses (`< 200 ms`) it sets
`maxConcurrent = Math.min(20, Math.ceil(currentReservoir * 1.1))` and
`minTime = Math.max(50, Math.floor(minTime * 0.9))`; otherwise unchanged. -/
def tuneTick (s : LimiterState) (errorRate avgResponseTime : ℚ) : LimiterState :=
  if errorRate > 1 / 10 then
    { s with maxConcurrent := max 1 ⌊(s.currentReservoir : ℚ) * (4 / 5)⌋
             minTime := min 500 (s.minTime * (6 / 5)) }
  else if errorRate < 1 / 100 ∧ avgResponseTime < 200 then
    { s with maxConcurrent := min 20 ⌈(s.currentReservoir : ℚ) * (11 / 10)⌉
             minTime := ((max 50 ⌊s.minTime * (9 / 10)⌋ : Int) : ℚ) }
  else s

end ExcelFormater

namespace ExcelFormater

/-! ## Claim theorems -/

/-- The category computed by `categorizeError` when a response is present,
as a function of the status alone. -/
lemma categorizeError_category_of_response (e : ApiError) (r : RespData)
    (hr : e.response = some r) (h0 : r.status ≠ 0) :
    (categorizeError e).category =
      (if userActionStatusCodes.contains r.status then ErrorCategory.requiresUserAction
       else if authErrorCodes.contains r.status then ErrorCategory.authError
       else if r.status = 429 then ErrorCategory.temporaryFailure
       else if 500 ≤ r.status then ErrorCategory.systemError
       else ErrorCategory.unknownError) := by
  simp only [categorizeError, hr, Option.map_some', jsTruthy, Option.getD_some]
  simp [h0]

/-- `canRetry` is definitionally the decision of the category disjunction. -/
lemma categorizeError_canRetry (e : ApiError) :
    (categorizeError e).canRetry =
      decide ((categorizeError e).category = ErrorCategory.temporaryFailure ∨
              (categorizeError e).category = ErrorCategory.networkError) := by
  simp only [categorizeError]

/-- C6: the classifier maps statuses 400/403/404/409/422 to
REQUIRES_USER_ACTION (403 resolves there, not to AUTH_ERROR), 401 to
AUTH_ERROR, 429 to TEMPORARY_FAILURE and every status ≥ 500 to SYSTEM_ERROR;
and `canRetry` holds exactly for TEMPORARY_FAILURE and NETWORK_ERROR. -/
theorem C6_error_classifier_taxonomy :
    (∀ e : ApiError, (categorizeError e).canRetry = true ↔
        ((categorizeError e).category = ErrorCategory.temporaryFailure ∨
         (categorizeError e).category = ErrorCategory.networkError)) ∧
    (∀ (e : ApiError) (r : RespData), e.response = some r →
      ((r.status = 400 ∨ r.status = 403 ∨ r.status = 404 ∨ r.status = 409 ∨ r.status = 422) →
         (categorizeError e).category = ErrorCategory.requiresUserAction) ∧
      (r.status = 401 → (categorizeError e).category = ErrorCategory.authError) ∧
      (r.status = 429 → (categorizeError e).category = ErrorCategory.temporaryFailure) ∧
      (500 ≤ r.status → (categorizeError e).category = ErrorCategory.systemError)) := by
  constructor
  · intro e
    rw [categorizeError_canRetry]
    exact decide_eq_true_iff
  · intro e r hr
    refine ⟨?_, ?_, ?_, ?_⟩
    · rintro (h | h | h | h | h) <;>
        · rw [categorizeError_category_of_response e r hr (by omega)]
          simp [userActionStatusCodes, h]
    · intro h
      rw [categorizeError_category_of_response e r hr (by omega)]
      simp [userActionStatusCodes, authErrorCodes, h]
    · intro h
      rw [categorizeError_category_of_response e r hr (by omega)]
      simp [userActionStatusCodes, authErrorCodes, h]
    · intro h
      rw [categorizeError_category_of_response e r hr (by omega)]
      have h1 : r.status ∉ userActionStatusCodes := by
        intro hmem
        simp only [userActionStatusCodes, List.mem_cons, List.not_mem_nil, or_false] at hmem
        omega
      have h2 : r.status ∉ authErrorCodes := by
        intro hmem
        simp only [authErrorCodes, List.mem_cons, List.not_mem_nil, or_false] at hmem
        omega
      have h3 : r.status ≠ 429 := by omega
      simp [h1, h2, h3, h]

/-- A 422-response error, used to instantiate `C6_error_classifier_taxonomy`. -/
def apiError422 : ApiError where
  response := some { status := 422, dataErrors := some "bad date" }
  code := none
  messageHasTimeout := false
  message := "Request failed with status code 422"

/-- Witness for C6 at status 422 and at a network error. -/
theorem C6_error_classifier_taxonomy_witness :
    (categorizeError apiError422).category = ErrorCategory.requiresUserAction ∧
    ((categorizeError apiError422).canRetry = true ↔
      ((categorizeError apiError422).category = ErrorCategory.temporaryFailure ∨
       (categorizeError apiError422).category = ErrorCategory.networkError)) :=
  ⟨(C6_error_classifier_taxonomy.2 apiError422 _ rfl).1 (by norm_num),
   C6_error_classifier_taxonomy.1 apiError422⟩

end ExcelFormater

namespace ExcelFormater

/-- The loop counter is named `attempt`; `attempts` is not a defined
identifier at the worker's throw sites. -/
lemma attempts_not_in_scope : attemptsInScope = false := by decide

/-- Every terminal-failure value of the worker loop is the `ReferenceError`. -/
lemma throwTerminal_eq (c : CategorizedError) (a : Nat) :
    throwTerminal c a = WorkerThrow.referenceError "attempts" := by
  simp [throwTerminal, attempts_not_in_scope]

/-- Every timeout recorded by the worker loop belongs to an attempt index in
`[a, a + fuel)` and equals `timeoutForAttempt` of that index. -/
lemma runWorkerLoop_timeouts (wire : Nat → WireOutcome) (m : Nat) :
    ∀ (fuel a t : Nat), t ∈ (runWorkerLoop wire m fuel a).timeoutsUsed →
      ∃ n, a ≤ n ∧ n < a + fuel ∧ t = timeoutForAttempt n := by
  intro fuel
  induction fuel with
  | zero =>
      intro a t ht
      simp [runWorkerLoop] at ht
  | succ fuel ih =>
      intro a t ht
      simp only [runWorkerLoop] at ht
      split at ht
      · simp at ht
        exact ⟨a, le_refl a, by omega, ht⟩
      · split at ht
        · simp at ht
          exact ⟨a, le_refl a, by omega, ht⟩
        · split at ht
          · simp at ht
            exact ⟨a, le_refl a, by omega, ht⟩
          · simp only [List.mem_cons] at ht
            rcases ht with ht | ht
            · exact ⟨a, le_refl a, by omega, ht⟩
            · obtain ⟨n, h1, h2, h3⟩ := ih (a + 1) t ht
              exact ⟨n, by omega, by omega, h3⟩

/-- Every error the worker loop terminates with is the `ReferenceError`. -/
lemma runWorkerLoop_error (wire : Nat → WireOutcome) (m : Nat) :
    ∀ (fuel a : Nat) (t : WorkerThrow), (runWorkerLoop wire m fuel a).result = .error t →
      t = WorkerThrow.referenceError "attempts" := by
  intro fuel
  induction fuel with
  | zero =>
      intro a t ht
      simp [runWorkerLoop] at ht
  | succ fuel ih =>
      intro a t ht
      simp only [runWorkerLoop] at ht
      split at ht
      · simp at ht
      · split at ht
        · simp only [Except.error.injEq] at ht
          rw [← ht, throwTerminal_eq]
        · split at ht
          · simp only [Except.error.injEq] at ht
            rw [← ht, throwTerminal_eq]
          · exact ih (a + 1) t ht

/-- C7 (amended): every per-attempt timeout used by the worker's retry loop
equals 15 s + 5 s × n for the attempt's 0-based index n; with the default
`maxRetries = 3` the index is below 3 and the timeout never exceeds 25 s.
(The claim's 10 s base is wrong: `API_TIMEOUT` is 15000 ms.) -/
theorem C7_attempt_timeouts (wire : Nat → WireOutcome) (t : Nat)
    (ht : t ∈ (processRecordWorker wire).timeoutsUsed) :
    ∃ n, n < 3 ∧ t = 15000 + n * 5000 ∧ t ≤ 25000 := by
  obtain ⟨n, h1, h2, h3⟩ := runWorkerLoop_timeouts wire 3 3 0 t ht
  refine ⟨n, by omega, ?_, ?_⟩
  · rw [h3]; simp [timeoutForAttempt, apiTimeout]
  · rw [h3]; simp only [timeoutForAttempt, apiTimeout]; omega

/-- A network behaviour where every POST is refused (a retryable
NETWORK_ERROR), driving the worker through all three attempts. -/
def wireNet : Nat → WireOutcome :=
  fun _ => .netError (some "ECONNREFUSED") false "connect ECONNREFUSED"

/-- Witness for C7: the refused-connection run makes three attempts with
timeouts 15 s, 20 s, 25 s; instantiated at the third attempt's timeout. -/
theorem C7_attempt_timeouts_witness :
    (processRecordWorker wireNet).timeoutsUsed = [15000, 20000, 25000] ∧
    ∃ n, n < 3 ∧ 25000 = 15000 + n * 5000 ∧ 25000 ≤ 25000 :=
  ⟨by decide, C7_attempt_timeouts wireNet 25000 (by decide)⟩

/-- C7 counterexample (to the claim as stated): the very first attempt's
timeout is 15000 ms, not 10 s + 5 s × 0 = 10000 ms. -/
theorem C7_counterexample :
    (processRecordWorker wireNet).timeoutsUsed.head? = some 15000 ∧ (15000 : Nat) ≠ 10000 := by
  constructor
  · decide
  · decide

/-- C10: whenever the worker's `process_record` task ends in a throw, the
thrown value is the `ReferenceError` for the undefined identifier `attempts`
(not the categorized error object), and after the `JSON.stringify`/`parse`
round trip the submitter's error carries no category, statusCode, canRetry or
attempts metadata. -/
theorem C10_reference_error (wire : Nat → WireOutcome) (t : WorkerThrow)
    (h : (processRecordWorker wire).result = .error t) :
    t = WorkerThrow.referenceError "attempts" ∧
    ∀ rec : Record,
      (submitterView t rec).category = none ∧
      (submitterView t rec).statusCode = none ∧
      (submitterView t rec).canRetry = none ∧
      (submitterView t rec).attempts = none := by
  have heq := runWorkerLoop_error wire 3 3 0 t h
  subst heq
  exact ⟨rfl, fun _ => ⟨rfl, rfl, rfl, rfl⟩⟩

/-- Witness for C10: the refused-connection run ends in the `ReferenceError`
and the submitter-visible error is metadata-free. -/
theorem C10_reference_error_witness :
    (processRecordWorker wireNet).result = .error (WorkerThrow.referenceError "attempts") ∧
    (submitterView (WorkerThrow.referenceError "attempts")
      { memberId := "M1", requestId := "R1" }).category = none :=
  ⟨rfl,
   ((C10_reference_error wireNet (WorkerThrow.referenceError "attempts") rfl).2
     { memberId := "M1", requestId := "R1" }).1⟩

end ExcelFormater

namespace ExcelFormater

/-- A 422 validation response (scenario S2's `{"errors":["bad date"]}`). -/
def resp422 : RespData := { status := 422, dataErrors := some "bad date" }

/-- A network on which every POST returns HTTP 422. -/
def wire422 : Nat → WireOutcome := fun _ => .response resp422

/-- The pool behaviour for a record whose POST always yields 422. -/
def worker422 : Record → WorkerRun := fun _ => processRecordWorker wire422

/-- Scenario S1/S2's record. -/
def rec1 : Record := { memberId := "M1", requestId := "R1" }

/-- The serial-fallback behaviour for the 422 job: the per-record pipeline
(processRecord.js `processRecord`) with no stored circuit-breaker state, over
the network on which every POST returns 422. -/
def serial422 : Record → PipelineRun :=
  fun r => pipelineProcessRecord (.ok none) 0 wire422 r "S1" "J1"

/-- C1 (code bug): because the worker's axios instance accepts every status
below 500 (`validateStatus: status => status < 500`), a record whose POST
receives HTTP 422 resolves as a *success* after a single attempt, with no
retry.  `batchProcessRecords` counts it as a success, persists a
`SuccessResponse` and never a `UserActionError`; the per-record pipeline of
the serial path does the same; and the job — which falls into that serial
path via the part_012 line 119 `.filter` TypeError — reports
`successCount = 1, failureCount = 0` with only `SuccessResponse` writes
(one from the batched sub-batch, one from the serial reprocessing).  The
classifier's REQUIRES_USER_ACTION handling is unreachable for 4xx
responses. -/
theorem C1_http422_counted_as_success :
    (processRecordWorker wire422).result = .ok (some { resp := resp422, attempts := 1 }) ∧
    (processRecordWorker wire422).timeoutsUsed.length = 1 ∧
    (batchProcessRecords [rec1] worker422 "S1" "J1").successCount = 1 ∧
    (batchProcessRecords [rec1] worker422 "S1" "J1").failureCount = 0 ∧
    (batchProcessRecords [rec1] worker422 "S1" "J1").userActionRequiredCount = 0 ∧
    (batchProcessRecords [rec1] worker422 "S1" "J1").effects =
      [RedisWrite.successResponse "S1" "J1" 422 rec1] ∧
    (serial422 rec1).result = .ok { resp := resp422, attempts := 1 } ∧
    (serial422 rec1).effects = [RedisWrite.successResponse "S1" "J1" 422 rec1] ∧
    (processJob [rec1] true true true worker422 serial422 "S1" "J1").successCount = 1 ∧
    (processJob [rec1] true true true worker422 serial422 "S1" "J1").failureCount = 0 ∧
    (processJob [rec1] true true true worker422 serial422 "S1" "J1").effects =
      [RedisWrite.successResponse "S1" "J1" 422 rec1,
       RedisWrite.successResponse "S1" "J1" 422 rec1] :=
  ⟨rfl, rfl, rfl, rfl, rfl, rfl, rfl, rfl, rfl, rfl, rfl⟩

end ExcelFormater

namespace ExcelFormater

/-- The error the pipeline's circuit-breaker gate throws: a plain
`new Error('Circuit breaker active - request rejected')` with no category. -/
def circuitBreakerGateError : PipelineError :=
  { message := "Circuit breaker active - request rejected" }

/-- C3 (amended): while the stored `metrics:circuitBreaker` hash satisfies
`now − lastTripped < 60000`, the pipeline rejects the record immediately by
throwing the *plain* error `"Circuit breaker active - request rejected"` —
carrying no SYSTEM_ERROR category — and issues no outbound HTTP POST and no
durable write for that record. -/
theorem C3_circuit_breaker_gate (t now : Int) (reason : Option String)
    (wire : Nat → WireOutcome) (rec : Record) (sessionId jobId : String)
    (hactive : now - t < circuitBreakerGateResetTimeout) :
    (pipelineProcessRecord (.ok (some { lastTripped := some t, reason := reason }))
        now wire rec sessionId jobId).result = .error circuitBreakerGateError ∧
    circuitBreakerGateError.category = none ∧
    (pipelineProcessRecord (.ok (some { lastTripped := some t, reason := reason }))
        now wire rec sessionId jobId).httpPosts = 0 ∧
    (pipelineProcessRecord (.ok (some { lastTripped := some t, reason := reason }))
        now wire rec sessionId jobId).effects = [] := by
  have hb : isCircuitBreakerActive
      (.ok (some { lastTripped := some t, reason := reason })) now = true := by
    simp [isCircuitBreakerActive, hactive]
  refine ⟨?_, rfl, ?_, ?_⟩ <;> simp [pipelineProcessRecord, hb, circuitBreakerGateError]

/-- Witness for C3 at a breaker tripped at time 0 and a request at 1000 ms. -/
theorem C3_circuit_breaker_gate_witness :
    (pipelineProcessRecord (.ok (some { lastTripped := some 0, reason := none }))
        1000 wire422 rec1 "S1" "J1").result = .error circuitBreakerGateError ∧
    (pipelineProcessRecord (.ok (some { lastTripped := some 0, reason := none }))
        1000 wire422 rec1 "S1" "J1").httpPosts = 0 := by
  have h := C3_circuit_breaker_gate 0 1000 none wire422 rec1 "S1" "J1"
    (by norm_num [circuitBreakerGateResetTimeout])
  exact ⟨h.1, h.2.2.1⟩

/-- C3 counterexample (to the claim as stated): the gate's rejection is not a
`SYSTEM_ERROR: "Circuit breaker active"` — the thrown error carries no
category at all and its message is the longer
`"Circuit breaker active - request rejected"`. -/
theorem C3_counterexample :
    (pipelineProcessRecord (.ok (some { lastTripped := some 0, reason := none }))
        1000 wire422 rec1 "S1" "J1").result = .error circuitBreakerGateError ∧
    circuitBreakerGateError.category = none ∧
    circuitBreakerGateError.category ≠ some ErrorCategory.systemError ∧
    circuitBreakerGateError.message ≠ "Circuit breaker active" := by
  have hb : isCircuitBreakerActive (.ok (some { lastTripped := some 0, reason := none }))
      1000 = true := by
    simp [isCircuitBreakerActive, circuitBreakerGateResetTimeout]
  exact ⟨by simp [pipelineProcessRecord, hb, circuitBreakerGateError], rfl, by decide, by decide⟩

end ExcelFormater

namespace ExcelFormater

/-- Bumping one status counter raises the counter sum by exactly one. -/
lemma bumpStatus_sum (l : List (Nat × Nat)) (code : Nat) :
    ((bumpStatus l code).map (·.2)).sum = (l.map (·.2)).sum + 1 := by
  induction l with
  | nil => simp [bumpStatus]
  | cons p rest ih =>
      rcases p with ⟨c, n⟩
      by_cases h : c = code <;> simp [bumpStatus, h, ih] <;> omega

/-- One `trackApiCall` update raises `total` by 1, exactly one of
`success`/`failure` by 1, and the status-counter sum by 1 exactly when the
computed status code is truthy. -/
lemma trackApiCall_step (s : SessionStats) (o : TrackedOutcome) :
    (trackApiCall s o).total = s.total + 1 ∧
    (trackApiCall s o).success + (trackApiCall s o).failure = s.success + s.failure + 1 ∧
    statusSum (trackApiCall s o) =
      statusSum s + (if trackedStatusCode o ≠ 0 then 1 else 0) := by
  refine ⟨rfl, ?_, ?_⟩
  · simp only [trackApiCall]
    split_ifs <;> omega
  · simp only [trackApiCall, statusSum]
    by_cases h : trackedStatusCode o ≠ 0 <;> simp [h, bumpStatus_sum]

/-- Folding `trackApiCall` over any outcome list, from any starting stats. -/
lemma trackApiCall_fold (os : List TrackedOutcome) :
    ∀ s : SessionStats,
      (os.foldl trackApiCall s).total = s.total + os.length ∧
      (os.foldl trackApiCall s).success + (os.foldl trackApiCall s).failure =
        s.success + s.failure + os.length ∧
      statusSum (os.foldl trackApiCall s) =
        statusSum s + os.countP (fun o => decide (trackedStatusCode o ≠ 0)) := by
  induction os with
  | nil => intro s; simp
  | cons o rest ih =>
      intro s
      obtain ⟨h1, h2, h3⟩ := trackApiCall_step s o
      obtain ⟨g1, g2, g3⟩ := ih (trackApiCall s o)
      refine ⟨?_, ?_, ?_⟩
      · simp only [List.foldl_cons, g1, h1, List.length_cons]; omega
      · simp only [List.foldl_cons, g2, h2, List.length_cons]; omega
      · simp only [List.foldl_cons, g3, h3, List.countP_cons]
        by_cases h : trackedStatusCode o ≠ 0 <;> simp [h] <;> omega

/-- C5 (amended): after N recorded outcomes, `total = N` and
`success + failure = N`; the sum of the `status:<code>` counters equals the
number of outcomes that carried a (nonzero) status code — `trackApiCall` skips
the `status:<code>` increment when `statusCode` is falsy (worker.js line 76),
so outcomes with no status (e.g. transport failures) are missing from it. -/
theorem C5_session_stats (outcomes : List TrackedOutcome) :
    (trackAll outcomes).total = outcomes.length ∧
    (trackAll outcomes).success + (trackAll outcomes).failure = outcomes.length ∧
    statusSum (trackAll outcomes) =
      (outcomes.filter (fun o => decide (trackedStatusCode o ≠ 0))).length := by
  obtain ⟨h1, h2, h3⟩ := trackApiCall_fold outcomes {}
  refine ⟨by simpa [trackAll] using h1, by simpa [trackAll] using h2, ?_⟩
  simp only [trackAll]
  rw [h3, List.countP_eq_length_filter]
  simp [statusSum]

/-- C5 counterexample (to the claim as stated): a single terminal outcome with
no status code (a transport failure) gives `total = 1` but a status-counter
sum of 0, so `Σ status:* = N` fails. -/
theorem C5_counterexample :
    (trackAll [{ status := none, errorStatus := none, success := false }]).total = 1 ∧
    statusSum (trackAll [{ status := none, errorStatus := none, success := false }]) = 0 ∧
    (0 : Nat) ≠ 1 := by
  refine ⟨rfl, rfl, by decide⟩

end ExcelFormater

namespace ExcelFormater

/-- C8 (amended): on a high-error-rate tune tick (`errorRate > 0.1`) the new
`maxConcurrent` is `max(1, ⌊0.8 × currentReservoir⌋)` — computed from the
limiter's *current token reservoir*, not from its previous `maxConcurrent` —
and the new `minTime` is `min(500, 1.2 × minTime)` as the claim states. -/
theorem C8_rate_limiter_tuning (s : LimiterState) (errorRate avgResponseTime : ℚ)
    (h : errorRate > 1 / 10) :
    (tuneTick s errorRate avgResponseTime).maxConcurrent =
      max 1 ⌊(s.currentReservoir : ℚ) * (4 / 5)⌋ ∧
    (tuneTick s errorRate avgResponseTime).minTime = min 500 (s.minTime * (6 / 5)) := by
  have h' : (1 / 10 : ℚ) < errorRate := h
  unfold tuneTick
  split_ifs
  exact ⟨rfl, rfl⟩

/-- Witness for C8 at the limiter's initial settings and a 20 % error rate. -/
theorem C8_rate_limiter_tuning_witness :
    (tuneTick initialLimiter (1 / 5) 0).maxConcurrent =
      max 1 ⌊(initialLimiter.currentReservoir : ℚ) * (4 / 5)⌋ ∧
    (tuneTick initialLimiter (1 / 5) 0).minTime = min 500 (initialLimiter.minTime * (6 / 5)) :=
  C8_rate_limiter_tuning initialLimiter (1 / 5) 0 (by norm_num)

/-- C8 counterexample (to the claim as stated): from the initial settings
(`maxConcurrent = 5`, reservoir = 100) a high-error tick sets
`maxConcurrent = 80` (= ⌊0.8 × 100⌋), while `previous maxConcurrent × 0.8`
floored at 1 would give 4. -/
theorem C8_counterexample :
    (tuneTick initialLimiter (1 / 5) 0).maxConcurrent = 80 ∧
    max 1 ⌊(initialLimiter.maxConcurrent : ℚ) * (4 / 5)⌋ = 4 ∧
    (80 : Int) ≠ 4 := by
  refine ⟨?_, ?_, by decide⟩
  · have h : (1 / 5 : ℚ) > 1 / 10 := by norm_num
    simp only [tuneTick, if_pos h, initialLimiter]
    norm_num
  · simp only [initialLimiter]
    norm_num

end ExcelFormater

namespace ExcelFormater

/-- `Math.floor(MIN_CONCURRENCY * 1.5) = 30`. -/
lemma recoveryTargetInit_eq : recoveryTargetInit = 30 := by
  norm_num [recoveryTargetInit, minConcurrency]

/-- The controller invariant: concurrency within `[MIN, MAX]`, and while in
recovery mode the recovery window is the one set on breaker exit
(`start = MIN`, `target = ⌊1.5·MIN⌋`). -/
def concurrencyInv (s : CState) : Prop :=
  minConcurrency ≤ s.currentConcurrency ∧ s.currentConcurrency ≤ maxConcurrency ∧
  (s.inRecoveryMode = true →
    s.recoveryStartConcurrency = minConcurrency ∧
    s.recoveryTargetConcurrency = recoveryTargetInit)

/-- Every branch of the decision chain preserves the controller invariant. -/
lemma decidePhase_inv (s : CState) (now : Int) (d : Derived) (h : concurrencyInv s) :
    concurrencyInv (decidePhase s now d).state := by
  obtain ⟨h1, h2, h3⟩ := h
  simp only [minConcurrency, maxConcurrency, recoveryTargetInit_eq] at h1 h2 h3
  simp only [decidePhase, minConcurrency, maxConcurrency, maxRecoverySteps,
    concurrencyIncreaseRate, concurrencyStabilityThreshold]
  split_ifs
  all_goals simp only [concurrencyInv, minConcurrency, maxConcurrency, recoveryTargetInit_eq]
  all_goals first
    | (refine ⟨?_, ?_, ?_⟩ <;>
        first
          | omega
          | exact h3
          | (intro hh; exact absurd hh Bool.false_ne_true))
    | (cases hrec : s.inRecoveryMode with
       | false => simp_all
       | true =>
           obtain ⟨hstart, htarget⟩ := h3 hrec
           rw [hstart, htarget]
           refine ⟨?_, ?_, fun hh => ⟨rfl, rfl⟩⟩ <;> first | omega | (norm_num <;> omega))

/-- One full controller tick preserves the invariant. -/
lemma tick_inv (s : CState) (inp : Sample) (h : concurrencyInv s) :
    concurrencyInv (tick s inp).state := by
  simp only [tick]
  split
  · exact ⟨le_refl _, by norm_num [minConcurrency, maxConcurrency], fun _ => ⟨rfl, rfl⟩⟩
  · split
    · exact h
    · exact decidePhase_inv _ _ _ h

/-- The invariant holds at the controller's initial state. -/
lemma initialCState_inv : concurrencyInv initialCState :=
  ⟨le_refl _, by norm_num [initialCState, minConcurrency, maxConcurrency],
   fun hh => absurd hh Bool.false_ne_true⟩

/-- C4: along every sequence of controller ticks from the initial state —
through circuit-breaker trips and resets, recovery stepping, increases,
decreases and predictive adjustments — the current concurrency stays within
`20 ≤ C ≤ 50`. -/
theorem C4_concurrency_bounds (samples : List Sample) :
    20 ≤ (runTicks samples).currentConcurrency ∧ (runTicks samples).currentConcurrency ≤ 50 := by
  have hfold : ∀ (l : List Sample) (s : CState), concurrencyInv s →
      concurrencyInv (l.foldl (fun s inp => (tick s inp).state) s) := by
    intro l
    induction l with
    | nil => intro s hs; exact hs
    | cons a rest ih => intro s hs; exact ih _ (tick_inv s a hs)
  have h := hfold samples initialCState initialCState_inv
  exact ⟨h.1, h.2.1⟩

end ExcelFormater

namespace ExcelFormater

/-- The code's decrease step is at least 1 once a trigger has been counted. -/
lemma one_le_decreaseStepCalc (triggers : Nat) (h e : ℚ) (p : Int) (ht : 1 ≤ triggers) :
    1 ≤ decreaseStepCalc triggers h e p := by
  simp only [decreaseStepCalc, maxDecreaseStep]
  split_ifs <;> omega

/-- C9 (amended): on every decrease-branch tick the concurrency becomes
`max(MIN_CONCURRENCY, C − step)` with
`step = decreaseStepCalc = min(consecutiveDecreaseTriggers + 1,
MAX_DECREASE_STEP × severityMultiplier)` (raised to `|padj|` for a negative
predictive adjustment) — the multiplier scales the `MAX_DECREASE_STEP` cap,
it does not multiply `min(triggers, 3)` as the claim states. -/
theorem C9_decrease_step (s : CState) (now : Int) (d : Derived)
    (hmin : minConcurrency ≤ s.currentConcurrency)
    (hnotrip : ¬(d.avgError > circuitBreakerErrorThreshold ∨ d.systemHealth < -(7 / 10)))
    (hcool : ¬(now - s.lastConcurrencyChange < cooldownMs))
    (hrec : s.inRecoveryMode = false)
    (hinc : ¬(d.systemHealth > 3 / 10 ∧ d.avgCpu < 3 / 2 ∧ d.avgMem > 2 / 5 ∧
              d.avgBacklog > 5 ∧ d.avgError < 7 / 100))
    (hdec : d.systemHealth < -(3 / 10) ∨ d.avgCpu > 2 ∨ d.avgMem < 1 / 5 ∨
            d.avgError > 1 / 10 ∨ d.avgResponseTime > d.lastAvgResponseTime * (3 / 2)) :
    (decidePhase s now d).decision = Decision.decrease ∧
    (decidePhase s now d).state.currentConcurrency =
      max minConcurrency (s.currentConcurrency -
        decreaseStepCalc (s.consecutiveDecreaseTriggers + 1) d.systemHealth d.avgError d.padj) := by
  have hstep : 1 ≤ decreaseStepCalc (s.consecutiveDecreaseTriggers + 1)
      d.systemHealth d.avgError d.padj :=
    one_le_decreaseStepCalc _ _ _ _ (by omega)
  simp only [decidePhase]
  rw [if_neg hnotrip, if_neg hcool, if_neg (by simp [hrec]), if_neg hinc, if_pos hdec]
  split_ifs with happly
  · exact ⟨rfl, rfl⟩
  · refine ⟨rfl, ?_⟩
    simp only [minConcurrency] at *
    omega

/-- A controller state about to take the decrease branch: concurrency at the
maximum, four decrease triggers already counted. -/
def c9State : CState :=
  { initialCState with currentConcurrency := 50, consecutiveDecreaseTriggers := 4 }

/-- Derived metrics with `systemHealth = −0.65` (severity multiplier 2) and a
small error rate. -/
def c9Derived : Derived :=
  { avgCpu := 3 / 2, avgMem := 1 / 2, avgError := 3 / 200, avgBacklog := 10,
    avgResponseTime := 100, lastAvgResponseTime := 100,
    systemHealth := -(13 / 20), padj := 0 }

/-- Witness for C9 on the concrete decrease-branch state. -/
theorem C9_decrease_step_witness :
    (decidePhase c9State 40000 c9Derived).decision = Decision.decrease ∧
    (decidePhase c9State 40000 c9Derived).state.currentConcurrency =
      max minConcurrency (c9State.currentConcurrency -
        decreaseStepCalc (c9State.consecutiveDecreaseTriggers + 1)
          c9Derived.systemHealth c9Derived.avgError c9Derived.padj) :=
  C9_decrease_step c9State 40000 c9Derived
    (by norm_num [c9State, initialCState, minConcurrency])
    (by norm_num [c9Derived, circuitBreakerErrorThreshold])
    (by norm_num [c9State, initialCState, cooldownMs])
    (by norm_num [c9State, initialCState])
    (by norm_num [c9Derived])
    (Or.inl (by norm_num [c9Derived]))

/-- The decrement the claim (and spec §4.7) prescribes for the decrease
branch: `min(consecutiveDecreaseTriggers, MAX_DECREASE_STEP = 3) ×
severityMultiplier`.  Stated from the specification's words, for comparison
with the code's `decreaseStepCalc`. -/
def claimedDecreaseStep (triggers : Nat) (systemHealth avgError : ℚ) : Int :=
  (min (triggers : Int) 3) *
    (if avgError > 1 / 5 then 3 else if systemHealth < -(3 / 5) then 2 else 1)

/-- A full controller state whose next tick takes the decrease branch with
system health −0.65 (multiplier 2) and five counted triggers. -/
def c9TickState : CState :=
  { initialCState with
    currentConcurrency := 50
    consecutiveDecreaseTriggers := 4
    cpuHistory := [1]
    memHistory := [1 / 2]
    errorRateHistory := [1 / 100]
    backlogHistory := [10]
    responseTimeHistory := [100]
    cpuTrend := [1, 1]
    errorTrend := [1, 1]
    backlogTrend := [0, 0]
    responseTimeChangeTrend := [3 / 4, 0]
    lastAvgResponseTime := 100 }

/-- The measurements feeding that tick. -/
def c9Sample : Sample :=
  { now := 40000, cpu := 2, mem := 1 / 2, backlog := 10, apiErrorRate := 2 / 100,
    redisAvgResponseTime := none, hourNow := 3 }

/-- C9 counterexample (to the claim as stated): this tick takes the decrease
branch with `consecutiveDecreaseTriggers = 5`, `systemHealth = −0.65`
(multiplier 2) and `avgError = 0.015`; the code decrements by
`min(5, 3 × 2) = 5` giving concurrency 45, while the claim's formula
`min(5, 3) × 2 = 6` would give 44. -/
theorem C9_counterexample :
    (tick c9TickState c9Sample).decision = Decision.decrease ∧
    (tick c9TickState c9Sample).state.currentConcurrency = 45 ∧
    max minConcurrency (c9TickState.currentConcurrency -
      claimedDecreaseStep (c9TickState.consecutiveDecreaseTriggers + 1)
        (-(13 / 20)) (3 / 200)) = 44 ∧
    (45 : Int) ≠ 44 := by
  refine ⟨?_, ?_, ?_, by decide⟩ <;>
    norm_num [List.cons_ne_nil, tick, decidePhase, c9TickState, c9Sample, initialCState, pushCap,
      movingAverage, detectTrend, negTrendScore, posTrendScore, negRatTrendScore,
      patternsGet, patternsSet, historyLength, trendHistoryLength,
      systemHealthHistoryLen, predictionUpdateInterval, circuitBreakerErrorThreshold,
      circuitBreakerResetTimeout, cooldownMs, minConcurrency, maxConcurrency,
      maxDecreaseStep, concurrencyStabilityThreshold, concurrencyIncreaseRate,
      maxRecoverySteps, decreaseStepCalc, claimedDecreaseStep, recoveryTargetInit]

end ExcelFormater

namespace ExcelFormater

/-- C2 (code bug): `batchResults` at part_012 line 110 is the
`{results, summary}` *object* returned by `batchProcessRecords`
(processRecord.js lines 557-565), so `batchResults.filter(r => r.success)` at
line 119 throws a TypeError on the first sub-batch of every non-empty job:
`successCount`/`failureCount` are never updated after a sub-batch, no
progress snapshot, `job.updateProgress` or `worker:globalMetrics` write is
ever reached in the batched path, and the `catch` at line 204 sends every
non-empty job into the serial per-record fallback — not only pool-level
catastrophic failures.  Evaluated here at a one-record job: the sub-batch
loop throws the TypeError (after the first chunk's pool processing and its
durable writes did happen), the job uses the fallback, and — for any records,
worker, and serial behaviour — the progress snapshots stay empty. -/
theorem C2_filter_type_error :
    (∀ (records : List Record) (worker : Record → WorkerRun)
       (serialRun : Record → PipelineRun) (sessionId jobId : String),
      (processJob records true true true worker serialRun sessionId jobId).progressSnapshots =
        []) ∧
    (runSubBatches worker422 "S1" "J1" (chunksOf batchSize [rec1])).1 =
      some BatchLoopThrow.filterTypeError ∧
    (runSubBatches worker422 "S1" "J1" (chunksOf batchSize [rec1])).2.2.2.2 =
      [RedisWrite.successResponse "S1" "J1" 422 rec1] ∧
    (processJob [rec1] true true true worker422 serial422 "S1" "J1").usedFallback = true ∧
    (processJob [rec1] true true true worker422 serial422 "S1" "J1").progressSnapshots = [] := by
  refine ⟨?_, rfl, rfl, rfl, rfl⟩
  intro records worker serialRun sessionId jobId
  simp only [processJob, Bool.not_true, Bool.false_eq_true, if_false]
  rcases h : chunksOf batchSize records with _ | ⟨c, rest⟩
  · simp [runSubBatches, h]
  · simp only [h, runSubBatches]

end ExcelFormater
